import Mathlib

/-!
Verification of the routing and dispatch core of the codis proxy.

Part 1 embeds `pkg/proxy/redis/decoder.go`: bytes are modelled as natural
numbers below 256, the buffered input stream as a `List Nat`, and fallible
reads as `Except`.  Part 2 embeds the router (`router.go`): slots, the
fill/switch operations and the online/closed flags.
-/

namespace Codis

/-! ## RESP frames (decoder.go) -/

/-- RESP type tag bytes: TypeString is the byte of a plus sign (43),
TypeError a minus sign (45), TypeInt a colon (58), TypeBulkBytes a dollar
sign (36), TypeArray an asterisk (42). -/
def TypeString : Nat := 43
def TypeError : Nat := 45
def TypeInt : Nat := 58
def TypeBulkBytes : Nat := 36
def TypeArray : Nat := 42

/-- A decoded RESP frame: a type tag plus an optional byte payload
(`Value` in the source, `none` models Go's nil slice) and an optional
element list (`Array` in the source). -/
inductive Resp where
  | mk (type : Nat) (value : Option (List Nat)) (array : Option (List Resp))
deriving Repr

def Resp.type : Resp → Nat
  | .mk t _ _ => t

def Resp.value : Resp → Option (List Nat)
  | .mk _ v _ => v

def Resp.array : Resp → Option (List Resp)
  | .mk _ _ a => a

/-- `NewBulkBytes` from the source: a bulk-bytes frame holding `v`. -/
def NewBulkBytes (v : List Nat) : Resp := Resp.mk TypeBulkBytes (some v) none

/-- The decoder's error values, one per `errors.New` in decoder.go, plus
`ioErr` for a failed read from the underlying buffered reader, `atoiErr`
for a `strconv.ParseInt` failure inside `Btoi64`, `badRespType` for an
unknown type tag, and `fuelOut` for recursion-fuel exhaustion (never
reached when the fuel exceeds the input length). -/
inductive DErr where
  | badCRLFEnd
  | badArrayLen
  | badArrayLenTooLong
  | badBulkBytesLen
  | badBulkBytesLenTooLong
  | badMultiBulkLen
  | badMultiBulkContent
  | badRespType (b : Nat)
  | atoiErr
  | ioErr
  | failedDecoder
  | fuelOut
deriving Repr, DecidableEq

def MaxBulkBytesLen : Nat := 1024 * 1024 * 512
def MaxArrayLen : Nat := 1024 * 1024

/-! ### Buffered-reader primitives.

Modelled from the spec: the decoder "consumes bytes from a buffered
reader" (`bufio2.Reader`, not under src/).  `readByte`/`peekByte` read or
peek one byte, `readUntilLF` is `ReadBytes('\n')`/`ReadSlice('\n')`
(the returned line includes the delimiter; a missing delimiter is a read
error), and `readFull n` is `ReadFull` of exactly `n` bytes. -/

def readByte : List Nat → Except DErr (Nat × List Nat)
  | [] => .error .ioErr
  | b :: s => .ok (b, s)

def peekByte : List Nat → Except DErr Nat
  | [] => .error .ioErr
  | b :: _ => .ok b

def readUntilLF : List Nat → Option (List Nat × List Nat)
  | [] => none
  | b :: s =>
    if b = 10 then some ([10], s)
    else
      match readUntilLF s with
      | none => none
      | some (l, r) => some (b :: l, r)

def readFull (n : Nat) (s : List Nat) : Except DErr (List Nat × List Nat) :=
  if n ≤ s.length then .ok (s.take n, s.drop n) else .error .ioErr

/-! ### Btoi64 and its strconv.ParseInt fallback -/

def isDigitByte (c : Nat) : Bool := decide (48 ≤ c ∧ c ≤ 57)

/-- The value of a digit string, accumulated left to right exactly like
the loop in `Btoi64` (`n = int64(b[i]-'0') + n*10`). -/
def digitsVal (l : List Nat) : Nat :=
  l.foldl (fun n c => n * 10 + (c - 48)) 0

/-- Splits `b` into an optional leading sign and the remaining bytes, the
shared shape of the `switch b[0]` in `Btoi64` and of ParseInt's sign
handling: a minus sign (45) or plus sign (43) is consumed, a minus sets
the negative flag. -/
def signSplit (b : List Nat) : Bool × List Nat :=
  match b with
  | 45 :: t => (true, t)
  | 43 :: t => (false, t)
  | _ => (false, b)

/-- The reference semantics this development compares `Btoi64` against:
base-10 signed 64-bit parsing as `strconv.ParseInt(string(b), 10, 64)`
behaves — an optional single sign, at least one digit, digits only, and
the value must fit in a signed 64-bit integer; `none` models any parse
error. -/
def parseInt64 (b : List Nat) : Option Int :=
  let p := signSplit b
  if p.2.length ≠ 0 ∧ p.2.all isDigitByte then
    let v : Int := if p.1 then -(digitsVal p.2 : Int) else (digitsVal p.2 : Int)
    if -(2 ^ 63) ≤ v ∧ v < 2 ^ 63 then some v else none
  else none

/-- `Btoi64` from decoder.go: for inputs of fewer than 10 bytes a manual
sign-and-digits fast path computes the value directly; every other input
(or a fast-path fall-through on an empty digit part or a non-digit byte)
goes to `strconv.ParseInt`, modelled by `parseInt64`. -/
def Btoi64 (b : List Nat) : Option Int :=
  if b.length ≠ 0 ∧ b.length < 10 then
    let p := signSplit b
    if p.2.length ≠ 0 ∧ p.2.all isDigitByte then
      let n : Int := (digitsVal p.2 : Int)
      some (if p.1 then -n else n)
    else parseInt64 b
  else parseInt64 b

/-! ### Line-level decoding -/

/-- `decodeTextBytes`: read through the next linefeed, require the byte
before it to be a carriage return (13), and return the line without the
trailing CRLF. -/
def decodeTextBytes (s : List Nat) : Except DErr (List Nat × List Nat) :=
  match readUntilLF s with
  | none => .error .ioErr
  | some (b, s₁) =>
    if 2 ≤ b.length ∧ b.getD (b.length - 2) 0 = 13 then
      .ok (b.take (b.length - 2), s₁)
    else .error .badCRLFEnd

/-- `decodeInt`: a CRLF-terminated line parsed by `Btoi64`. -/
def decodeInt (s : List Nat) : Except DErr (Int × List Nat) :=
  match readUntilLF s with
  | none => .error .ioErr
  | some (b, s₁) =>
    if 2 ≤ b.length ∧ b.getD (b.length - 2) 0 = 13 then
      match Btoi64 (b.take (b.length - 2)) with
      | some n => .ok (n, s₁)
      | none => .error .atoiErr
    else .error .badCRLFEnd

/-- `decodeBulkBytes`: read the declared length; lengths below -1 are
`ErrBadBulkBytesLen`, lengths above `MaxBulkBytesLen` are
`ErrBadBulkBytesLenTooLong`, -1 is the null bulk; otherwise read the
payload plus its CRLF terminator. -/
def decodeBulkBytes (s : List Nat) : Except DErr (Option (List Nat) × List Nat) :=
  match decodeInt s with
  | .error e => .error e
  | .ok (n, s₁) =>
    if n < -1 then .error .badBulkBytesLen
    else if n > (MaxBulkBytesLen : Int) then .error .badBulkBytesLenTooLong
    else if n = -1 then .ok (none, s₁)
    else
      match readFull (n.toNat + 2) s₁ with
      | .error e => .error e
      | .ok (b, s₂) =>
        if b.getD n.toNat 0 = 13 ∧ b.getD (n.toNat + 1) 0 = 10 then
          .ok (some (b.take n.toNat), s₂)
        else .error .badCRLFEnd

/-! ### Frame decoding.

`decodeResp` and the element loop of `decodeArray` are mutually
recursive; recursion is bounded by an explicit fuel that every recursive
call decreases.  The top-level wrappers pass `input.length + 1` fuel,
which can only run out on inputs the source would still be reading; none
of the properties below depend on the fuel branch. -/

mutual

/-- `decodeResp`: one frame of any type.  The `TypeArray` branch inlines
`decodeArray` from the source: length below -1 is `ErrBadArrayLen`,
above `MaxArrayLen` is `ErrBadArrayLenTooLong`, -1 is the null array,
otherwise the declared number of elements is decoded in order. -/
def decodeResp : Nat → List Nat → Except DErr (Resp × List Nat)
  | 0, _ => .error .fuelOut
  | fuel + 1, s =>
    match readByte s with
    | .error e => .error e
    | .ok (b, s₁) =>
      if b = TypeString ∨ b = TypeError ∨ b = TypeInt then
        match decodeTextBytes s₁ with
        | .error e => .error e
        | .ok (v, s₂) => .ok (Resp.mk b (some v) none, s₂)
      else if b = TypeBulkBytes then
        match decodeBulkBytes s₁ with
        | .error e => .error e
        | .ok (v, s₂) => .ok (Resp.mk b v none, s₂)
      else if b = TypeArray then
        match decodeInt s₁ with
        | .error e => .error e
        | .ok (n, s₂) =>
          if n < -1 then .error .badArrayLen
          else if n > (MaxArrayLen : Int) then .error .badArrayLenTooLong
          else if n = -1 then .ok (Resp.mk b none none, s₂)
          else
            match decodeElems fuel n.toNat s₂ with
            | .error e => .error e
            | .ok (rs, s₃) => .ok (Resp.mk b none (some rs), s₃)
      else .error (.badRespType b)

/-- The `for i := range array` loop of `decodeArray`: decode `n`
elements in order, propagating the first error. -/
def decodeElems : Nat → Nat → List Nat → Except DErr (List Resp × List Nat)
  | 0, _, _ => .error .fuelOut
  | _ + 1, 0, s => .ok ([], s)
  | fuel + 1, n + 1, s =>
    match decodeResp fuel s with
    | .error e => .error e
    | .ok (r, s₁) =>
      match decodeElems fuel n s₁ with
      | .error e => .error e
      | .ok (rs, s₂) => .ok (r :: rs, s₂)

end

/-- The token-splitting loop of `decodeSingleLineMultiBulk`: the line is
cut at every space byte (32) and the nonempty segments are kept, in
order. -/
def splitTokens (b : List Nat) : List (List Nat) :=
  let r := b.foldr
    (fun c acc =>
      if c = 32 then
        (([] : List Nat), if acc.1 = ([] : List Nat) then acc.2 else acc.1 :: acc.2)
      else (c :: acc.1, acc.2))
    (([] : List Nat), ([] : List (List Nat)))
  if r.1 = ([] : List Nat) then r.2 else r.1 :: r.2

/-- `decodeSingleLineMultiBulk`: the inline fallback.  An empty line
yields the nil multi-bulk (no error); a line with at least one nonempty
whitespace-separated token yields those tokens as bulk strings; a line of
only spaces yields `ErrBadMultiBulkLen`. -/
def decodeSingleLineMultiBulk (s : List Nat) :
    Except DErr (Option (List Resp) × List Nat) :=
  match decodeTextBytes s with
  | .error e => .error e
  | .ok (b, s₁) =>
    if b = ([] : List Nat) then .ok (none, s₁)
    else
      match (splitTokens b).map NewBulkBytes with
      | [] => .error .badMultiBulkLen
      | multi => .ok (some multi, s₁)

/-- The element loop of `decodeMultiBulk`: each element must itself be a
bulk-bytes frame, anything else is `ErrBadMultiBulkContent`. -/
def decodeMultiElems (fuel : Nat) : Nat → List Nat → Except DErr (List Resp × List Nat)
  | 0, s => .ok ([], s)
  | n + 1, s =>
    match decodeResp fuel s with
    | .error e => .error e
    | .ok (r, s₁) =>
      if r.type ≠ TypeBulkBytes then .error .badMultiBulkContent
      else
        match decodeMultiElems fuel n s₁ with
        | .error e => .error e
        | .ok (rs, s₂) => .ok (r :: rs, s₂)

/-- `decodeMultiBulk`: peek the first byte; anything but the array tag
goes to the inline fallback; an array header with length at most 0
(including -1) is `ErrBadArrayLen`, above `MaxArrayLen` is
`ErrBadArrayLenTooLong`; otherwise the elements are decoded and must all
be bulk strings. -/
def decodeMultiBulk (fuel : Nat) (s : List Nat) :
    Except DErr (Option (List Resp) × List Nat) :=
  match peekByte s with
  | .error e => .error e
  | .ok b =>
    if b ≠ TypeArray then decodeSingleLineMultiBulk s
    else
      match readByte s with
      | .error e => .error e
      | .ok (_, s₁) =>
        match decodeInt s₁ with
        | .error e => .error e
        | .ok (n, s₂) =>
          if n ≤ 0 then .error .badArrayLen
          else if n > (MaxArrayLen : Int) then .error .badArrayLenTooLong
          else
            match decodeMultiElems fuel n.toNat s₂ with
            | .error e => .error e
            | .ok (rs, s₃) => .ok (some rs, s₃)

/-! ### The stateful Decoder -/

/-- A `Decoder` owns its remaining input and the sticky error field
`Err`. -/
structure Decoder where
  input : List Nat
  err : Option DErr
deriving Repr

/-- `Decoder.Decode`: with a sticky error present, fail with
`ErrFailedDecoder` and leave the state alone; otherwise decode one frame,
recording any error in `Err`. -/
def Decoder.Decode (d : Decoder) : (Option Resp × Option DErr) × Decoder :=
  match d.err with
  | some _ => ((none, some .failedDecoder), d)
  | none =>
    match decodeResp (d.input.length + 1) d.input with
    | .ok (r, s₁) => ((some r, none), { input := s₁, err := none })
    | .error e => ((none, some e), { d with err := some e })

/-- `Decoder.DecodeMultiBulk`: same sticky-error discipline for the
multi-bulk entry point. -/
def Decoder.DecodeMultiBulk (d : Decoder) :
    (Option (List Resp) × Option DErr) × Decoder :=
  match d.err with
  | some _ => ((none, some .failedDecoder), d)
  | none =>
    match decodeMultiBulk (d.input.length + 1) d.input with
    | .ok (m, s₁) => ((m, none), { input := s₁, err := none })
    | .error e => ((none, some e), { d with err := some e })

/-- `DecodeFromBytes`: one frame decoded by a fresh decoder over `p`. -/
def DecodeFromBytes (p : List Nat) : Option Resp × Option DErr :=
  (Decoder.Decode { input := p, err := none }).1

/-- `DecodeMultiBulkFromBytes`: one multi-bulk decoded by a fresh
decoder over `p`. -/
def DecodeMultiBulkFromBytes (p : List Nat) : Option (List Resp) × Option DErr :=
  (Decoder.DecodeMultiBulk { input := p, err := none }).1

/-- The two public entry points of a decoder. -/
inductive DecCall where
  | single
  | multi
deriving Repr, DecidableEq

/-- One entry-point call, with the two result shapes merged into a
single sum so traces are uniform: `Sum.inl` wraps a `Decode` frame,
`Sum.inr` a `DecodeMultiBulk` list. -/
def Decoder.step (d : Decoder) :
    DecCall → (Option (Resp ⊕ List Resp) × Option DErr) × Decoder
  | .single =>
    match d.Decode with
    | ((r, e), d₁) => ((r.map Sum.inl, e), d₁)
  | .multi =>
    match d.DecodeMultiBulk with
    | ((m, e), d₁) => ((m.map Sum.inr, e), d₁)

/-- The outputs of a sequence of entry-point calls. -/
def Decoder.trace (d : Decoder) : List DecCall → List (Option (Resp ⊕ List Resp) × Option DErr)
  | [] => []
  | c :: cs => (d.step c).1 :: Decoder.trace (d.step c).2 cs

/-! ## Router (router.go) -/

/-- `models.MaxSlotNum`: the fixed slot-space cardinality. -/
def MaxSlotNum : Nat := 1024

/-- The two forwarding strategies; `forwardMethod` is a closed two-case
variant in the source (`forwardSync`, `forwardSemiAsync`). -/
inductive ForwardKind where
  | sync
  | semiAsync
deriving Repr, DecidableEq

/-- `models.ForwardSync` / `models.ForwardSemiAsync`: the integer tags a
slot descriptor carries for the forwarding kind (0 and 1, the only two
values `FillSlot` accepts). -/
def modelsForwardSync : Int := 0
def modelsForwardSemiAsync : Int := 1

/-- One routing slot.  A shared backend connection is identified by the
address it was retained for (`some addr`); `none` models a nil
`*sharedBackendConn`.  `lockHold` is `slot.lock.hold`; the refcount and
wait queue are quiesced whenever the router mutates a slot, so they do
not appear here. -/
structure Slot where
  id : Nat
  backendBc : Option String
  backendId : Int
  migrateBc : Option String
  migrateId : Int
  replicaGroups : List (List String)
  method : ForwardKind
  switched : Bool
  lockHold : Bool
deriving Repr, DecidableEq

/-- `models.Slot`: the slot descriptor the control surface passes in. -/
structure ModelsSlot where
  id : Int
  backendAddr : String
  backendAddrGroupId : Int
  migrateFrom : String
  migrateFromGroupId : Int
  replicaGroups : List (List String)
  forwardMethod : Int
  locked : Bool
  switched : Bool
deriving Repr, DecidableEq

/-- The configuration fields the router core reads; only
`backend-primary-only` influences the modelled state. -/
structure Config where
  backendPrimaryOnly : Bool
deriving Repr, DecidableEq

/-- A shared backend pool as its observable refcounts: one `(address,
refcount)` entry per live address. -/
abbrev Pool := List (String × Nat)

/-- `sharedBackendConnPool.Retain`: a known address gains a reference, an
unknown one allocates a fresh entry. -/
def poolRetain (p : Pool) (addr : String) : Pool :=
  if p.any (fun e => e.1 = addr) then
    p.map (fun e => if e.1 = addr then (e.1, e.2 + 1) else e)
  else p ++ [(addr, 1)]

/-- `sharedBackendConn.Release`: drop one reference; the entry whose
count reaches zero is closed and removed. -/
def poolRelease (p : Pool) (addr : String) : Pool :=
  (p.map (fun e => if e.1 = addr then (e.1, e.2 - 1) else e)).filter (fun e => e.2 ≠ 0)

/-- Releasing through a possibly-nil connection handle: a nil receiver is
a no-op. -/
def poolReleaseOpt (p : Pool) : Option String → Pool
  | none => p
  | some addr => poolRelease p addr

/-- The routing errors of router.go. -/
inductive RouterErr where
  | closedRouter
  | invalidSlotId
  | invalidMethod
deriving Repr, DecidableEq

/-- The `Router`: the fixed slot array, the two pools, the configuration
and the `online`/`closed` flags. -/
structure Router where
  slots : Fin MaxSlotNum → Slot
  primaryPool : Pool
  replicaPool : Pool
  cfg : Config
  online : Bool
  closed : Bool

/-- Array indexing `s.slots[id]` for a descriptor id; every caller in the
source guarantees `0 ≤ id < MaxSlotNum`, so the modulus below is inert. -/
def slotIndex (i : Int) : Fin MaxSlotNum :=
  ⟨i.toNat % MaxSlotNum, Nat.mod_lt _ (by decide)⟩

/-- Array indexing for a loop counter; loop counters range over
`[0, MaxSlotNum)`, so the modulus below is inert. -/
def natIndex (i : Nat) : Fin MaxSlotNum :=
  ⟨i % MaxSlotNum, Nat.mod_lt _ (by decide)⟩

/-- `NewRouter`: every slot starts empty with its own id, the synchronous
method, and open lock; the router starts neither online nor closed. -/
def NewRouter (cfg : Config) : Router :=
  { slots := fun i =>
      { id := i.val, backendBc := none, backendId := 0, migrateBc := none,
        migrateId := 0, replicaGroups := [], method := .sync,
        switched := false, lockHold := false }
    primaryPool := [], replicaPool := [], cfg := cfg,
    online := false, closed := false }

/-- The internal `fillSlot`: block the slot, release every old handle and
clear the fields, record `switched`, retain the new backend / migration /
replica handles, install the method when one is supplied, and unblock
unless the descriptor asks to stay locked.  Each field below is the value
the source's mutation sequence leaves in place once the slot is unblocked:
the cleared-then-conditionally-set fields collapse to conditionals, the
replica loop appends exactly the nonempty groups (retaining each member
address), `lockHold` ends at `m.locked`, and a `none` method keeps the
existing one. -/
def Router.fillSlot (s : Router) (m : ModelsSlot) (switched : Bool)
    (method : Option ForwardKind) : Router :=
  let idx := slotIndex m.id
  let old := s.slots idx
  let pp := poolReleaseOpt (poolReleaseOpt s.primaryPool old.backendBc) old.migrateBc
  let rp := old.replicaGroups.foldl (fun acc g => g.foldl poolRelease acc) s.replicaPool
  let pp := if m.backendAddr ≠ "" then poolRetain pp m.backendAddr else pp
  let pp := if m.migrateFrom ≠ "" then poolRetain pp m.migrateFrom else pp
  let rp :=
    if ¬s.cfg.backendPrimaryOnly then
      m.replicaGroups.foldl (fun acc g => g.foldl poolRetain acc) rp
    else rp
  let sl : Slot :=
    { id := old.id
      backendBc := if m.backendAddr ≠ "" then some m.backendAddr else none
      backendId := if m.backendAddr ≠ "" then m.backendAddrGroupId else 0
      migrateBc := if m.migrateFrom ≠ "" then some m.migrateFrom else none
      migrateId := if m.migrateFrom ≠ "" then m.migrateFromGroupId else 0
      replicaGroups :=
        if ¬s.cfg.backendPrimaryOnly then
          m.replicaGroups.filter (fun g => g ≠ ([] : List String))
        else []
      method := method.getD old.method
      switched := switched
      lockHold := m.locked }
  { s with slots := Function.update s.slots idx sl, primaryPool := pp, replicaPool := rp }

/-- An all-empty descriptor for slot `i`, the `&models.Slot{Id: i}`
literal `Close` passes to `fillSlot`. -/
def emptySlotDescr (i : Nat) : ModelsSlot :=
  { id := Int.ofNat i, backendAddr := "", backendAddrGroupId := 0,
    migrateFrom := "", migrateFromGroupId := 0, replicaGroups := [],
    forwardMethod := 0, locked := false, switched := false }

/-- `Router.Start`: a closed router is left alone, otherwise the online
flag is set. -/
def Router.Start (s : Router) : Router :=
  if s.closed then s else { s with online := true }

/-- `Router.Close`: a closed router is left alone, otherwise the closed
flag is set and every slot is re-filled to the empty state. -/
def Router.Close (s : Router) : Router :=
  if s.closed then s
  else
    (List.range MaxSlotNum).foldl
      (fun st i => st.fillSlot (emptySlotDescr i) false none)
      { s with closed := true }

/-- `Router.isOnline`. -/
def Router.isOnline (s : Router) : Bool := s.online && !s.closed

/-- `Router.FillSlot`: the closed check, the slot-id range check, the
forwarding-kind check, then the internal `fillSlot`.  The state is
returned alongside the optional error so failure cases visibly leave it
unchanged. -/
def Router.FillSlot (s : Router) (m : ModelsSlot) : Router × Option RouterErr :=
  if s.closed then (s, some .closedRouter)
  else if m.id < 0 ∨ (MaxSlotNum : Int) ≤ m.id then (s, some .invalidSlotId)
  else if m.forwardMethod = modelsForwardSync then
    (s.fillSlot m false (some .sync), none)
  else if m.forwardMethod = modelsForwardSemiAsync then
    (s.fillSlot m false (some .semiAsync), none)
  else (s, some .invalidMethod)

/-- Modelled from the spec: `Slot.snapshot` lives in slots.go, outside
src/.  Per §4.4 it returns "a copy of the descriptor (ids, addresses,
replica groups, forwarding kind, lock flag, switched flag)" and never
mutates; a nil connection handle snapshots to the empty address. -/
def Slot.snapshot (sl : Slot) : ModelsSlot :=
  { id := Int.ofNat sl.id
    backendAddr := sl.backendBc.getD ""
    backendAddrGroupId := sl.backendId
    migrateFrom := sl.migrateBc.getD ""
    migrateFromGroupId := sl.migrateId
    replicaGroups := sl.replicaGroups
    forwardMethod := match sl.method with
      | .sync => modelsForwardSync
      | .semiAsync => modelsForwardSemiAsync
    locked := sl.lockHold
    switched := sl.switched }

/-- The `hasSameRunId` closure of `trySwitchMaster`: distinct address
strings share a run-id when the first one's run-id is known (nonempty)
and equal to the second one's; an address trivially shares a run-id with
itself.  `runId` is the info cache's per-address lookup, whose failure
value is the empty string. -/
def hasSameRunId (runId : String → String) (addr1 addr2 : String) : Bool :=
  if addr1 ≠ addr2 then decide (runId addr1 ≠ "" ∧ runId addr1 = runId addr2)
  else true

/-- The descriptor-editing body of `trySwitchMaster`: for the backend
group and then the migrate-from group, a nonempty mapped address that
does not share a run-id with the held address replaces it; the flag
records whether anything changed. -/
def switchTarget (masters : Int → String) (runId : String → String)
    (m : ModelsSlot) : ModelsSlot × Bool :=
  let p₁ :=
    if masters m.backendAddrGroupId ≠ "" ∧
        ¬hasSameRunId runId (masters m.backendAddrGroupId) m.backendAddr then
      ({ m with backendAddr := masters m.backendAddrGroupId }, true)
    else (m, false)
  if masters p₁.1.migrateFromGroupId ≠ "" ∧
      ¬hasSameRunId runId (masters p₁.1.migrateFromGroupId) p₁.1.migrateFrom then
    ({ p₁.1 with migrateFrom := masters p₁.1.migrateFromGroupId }, true)
  else p₁

/-- `Router.trySwitchMaster`: snapshot the slot, rewrite its descriptor
through `switchTarget`, and when something changed re-fill the slot from
the rewritten descriptor with `switched = true` and no method override.
`masters` is the group-to-address map (empty string means absent). -/
def Router.trySwitchMaster (s : Router) (id : Nat) (masters : Int → String)
    (runId : String → String) : Router :=
  let p := switchTarget masters runId ((s.slots (natIndex id)).snapshot)
  if p.2 then s.fillSlot p.1 true none else s

/-- `Router.SwitchMasters`: fail on a closed router, otherwise try every
slot in order against the map and the info cache. -/
def Router.SwitchMasters (s : Router) (masters : Int → String)
    (runId : String → String) : Router × Option RouterErr :=
  if s.closed then (s, some .closedRouter)
  else
    ((List.range MaxSlotNum).foldl
      (fun st i => st.trySwitchMaster i masters runId) s, none)

/-- The fields of a `Request` that `dispatch` reads. -/
structure Request where
  multi : List (List Nat)
  opStr : String

/-- `Router.dispatch`: compute the hash key, select the slot by the hash
modulo `MaxSlotNum`, and delegate to that slot's `forward`.  Modelled
from the spec: `getHashKey`, `Hash` and `Slot.forward` live outside src/
(§4.5: "compute slot_id = hash(hashkey) mod N; delegate to that slot's
forward"), so they are passed in as parameters; `forward` returns the
slot's successor state and the request's outcome. -/
def Router.dispatch (hash : List Nat → Nat)
    (getHashKey : List (List Nat) → String → List Nat)
    (forward : Slot → Request → List Nat → Slot × Option RouterErr)
    (s : Router) (r : Request) : Router × Option RouterErr :=
  let hkey := getHashKey r.multi r.opStr
  let id : Fin MaxSlotNum := ⟨hash hkey % MaxSlotNum, Nat.mod_lt _ (by decide)⟩
  let res := forward (s.slots id) r hkey
  ({ s with slots := Function.update s.slots id res.1 }, res.2)

/-- The router's public mutating operations, for reasoning about every
possible continuation of a run. -/
inductive ROp where
  | start
  | close
  | keepAlive
  | fill (m : ModelsSlot)
  | switch (masters : Int → String) (runId : String → String)

/-- Apply one public operation; `KeepAlive` only touches the pools'
sockets, never the router state. -/
def Router.applyOp (s : Router) : ROp → Router
  | .start => s.Start
  | .close => s.Close
  | .keepAlive => s
  | .fill m => (s.FillSlot m).1
  | .switch masters runId => (s.SwitchMasters masters runId).1

/-- Apply a sequence of public operations in order. -/
def Router.applyOps (s : Router) (ops : List ROp) : Router :=
  ops.foldl Router.applyOp s

/-- The condition under which `trySwitchMaster` leaves one address slot
pair alone: the group is unmapped, the mapped address equals the held
one, or the mapped address's run-id is known and equals the held
address's run-id. -/
def noSwitchCond (masters : Int → String) (runId : String → String)
    (gid : Int) (addr : String) : Prop :=
  masters gid = "" ∨ masters gid = addr ∨
    (runId (masters gid) ≠ "" ∧ runId (masters gid) = runId addr)

/-- `noSwitchCond` for both the backend pair and the migrate-from pair of
a slot. -/
def noSwitchCondBoth (masters : Int → String) (runId : String → String)
    (sl : Slot) : Prop :=
  noSwitchCond masters runId sl.backendId (sl.backendBc.getD "") ∧
    noSwitchCond masters runId sl.migrateId (sl.migrateBc.getD "")

/-- Every slot's `id` field equals its index, as `NewRouter` establishes
and every mutation preserves. -/
def slotIdsConsistent (s : Router) : Prop :=
  ∀ k : Fin MaxSlotNum, (s.slots k).id = k.val

/-! ### Concrete states used by the examples below -/

/-- A default configuration with replica groups enabled. -/
def cfg₀ : Config := { backendPrimaryOnly := false }

/-- A descriptor binding slot 0 to backend address "a" in group 1, with
the synchronous forwarding method. -/
def descr₀ : ModelsSlot :=
  { id := 0, backendAddr := "a", backendAddrGroupId := 1, migrateFrom := "",
    migrateFromGroupId := 0, replicaGroups := [], forwardMethod := 0,
    locked := false, switched := false }

/-- A fresh router whose slot 0 was filled from `descr₀`. -/
def r₁ : Router := (Router.FillSlot (NewRouter cfg₀) descr₀).1

/-- A master map sending group 1 to the new address "b" and mapping no
other group. -/
def mastersToB : Int → String := fun g => if g = 1 then "b" else ""

/-- A master map sending group 1 to the address "a" the slot already
holds and mapping no other group. -/
def mastersToA : Int → String := fun g => if g = 1 then "a" else ""

/-- An info cache that can determine no run-id at all. -/
def runIdUnknown : String → String := fun _ => ""

/-- An info cache that reports a distinct run-id for every address. -/
def runIdFresh : String → String := fun a => a ++ "-rid"

/-- A payload of exactly 512 MiB for exercising the bulk-length limit. -/
def bulkPayload : List Nat := List.replicate 536870912 97

/-- A bulk-string body declaring length 536870912 ("536870912\r\n")
followed by `bulkPayload` and its CRLF terminator. -/
def bulkInput536 : List Nat :=
  [53, 51, 54, 56, 55, 48, 57, 49, 50, 13, 10] ++ (bulkPayload ++ 13 :: 10 :: [])

/-!
# Theorems

Shared helper lemmas come first, then one theorem per claim of the
specification, each preceded by a comment naming the claim.
-/

/-! ## Helper lemmas: integer parsing -/

lemma digitsVal_aux (l : List Nat) :
    ∀ a : Nat, l.all isDigitByte = true →
      l.foldl (fun n c => n * 10 + (c - 48)) a < (a + 1) * 10 ^ l.length := by
  induction l with
  | nil => intro a _; simpa using Nat.lt_succ_self a
  | cons c t ih =>
    intro a h
    simp only [List.all_cons, Bool.and_eq_true] at h
    have hc : c - 48 ≤ 9 := by
      have := h.1
      simp only [isDigitByte, decide_eq_true_eq] at this
      omega
    have step := ih (a * 10 + (c - 48)) h.2
    calc List.foldl (fun n c => n * 10 + (c - 48)) (a * 10 + (c - 48)) t
        < (a * 10 + (c - 48) + 1) * 10 ^ t.length := step
      _ ≤ ((a + 1) * 10) * 10 ^ t.length := by
          apply Nat.mul_le_mul_right
          omega
      _ = (a + 1) * 10 ^ (t.length + 1) := by ring

lemma digitsVal_lt (l : List Nat) (h : l.all isDigitByte = true) :
    digitsVal l < 10 ^ l.length := by
  have := digitsVal_aux l 0 h
  simpa [digitsVal] using this

lemma signSplit_len (b : List Nat) : (signSplit b).2.length ≤ b.length := by
  unfold signSplit
  split <;> simp

/-! ## Helper lemmas: the sticky decoder state -/

lemma step_of_failed (d : Decoder) (c : DecCall) (e₀ : DErr) (h : d.err = some e₀) :
    d.step c = ((none, some .failedDecoder), d) := by
  cases c <;> simp [Decoder.step, Decoder.Decode, Decoder.DecodeMultiBulk, h]

lemma step_err_of_out_err (d : Decoder) (c : DecCall) (e : DErr)
    (h : (d.step c).1.2 = some e) : ∃ e₁, (d.step c).2.err = some e₁ := by
  cases hd : d.err with
  | some e₀ => exact ⟨e₀, by rw [step_of_failed d c e₀ hd]; exact hd⟩
  | none =>
    cases c
    · simp only [Decoder.step, Decoder.Decode, hd] at h ⊢
      cases hres : decodeResp (d.input.length + 1) d.input with
      | ok p => obtain ⟨r, s₁⟩ := p; rw [hres] at h; exact Option.noConfusion h
      | error e₁ => exact ⟨e₁, rfl⟩
    · simp only [Decoder.step, Decoder.DecodeMultiBulk, hd] at h ⊢
      cases hres : decodeMultiBulk (d.input.length + 1) d.input with
      | ok p => obtain ⟨r, s₁⟩ := p; rw [hres] at h; exact Option.noConfusion h
      | error e₁ => exact ⟨e₁, rfl⟩

lemma trace_of_failed (cs : List DecCall) :
    ∀ (d : Decoder) (e₀ : DErr), d.err = some e₀ →
      Decoder.trace d cs =
        List.replicate cs.length ((none, some DErr.failedDecoder)) := by
  induction cs with
  | nil => intro d e₀ _; rfl
  | cons c cs ih =>
    intro d e₀ h
    have hs := step_of_failed d c e₀ h
    simp only [Decoder.trace, hs, List.length_cons, List.replicate_succ]
    rw [ih d e₀ h]

/-! ## Claim theorems: the decoder -/

/-- Claim C9: `Btoi64`, with its sub-10-character fast path, agrees with
base-10 signed 64-bit parsing (`strconv.ParseInt` semantics, modelled by
`parseInt64`) on every byte string: the same value on success and an
error on exactly the same inputs. -/
theorem Btoi64_eq_parseInt64 (b : List Nat) : Btoi64 b = parseInt64 b := by
  simp only [Btoi64]
  split
  case isFalse => rfl
  case isTrue h1 =>
    split
    case isFalse => rfl
    case isTrue h2 =>
      simp only [parseInt64]
      rw [if_pos h2]
      have hlen : (signSplit b).2.length ≤ 9 := by
        have := signSplit_len b
        omega
      have hd : digitsVal (signSplit b).2 < 10 ^ 9 :=
        lt_of_lt_of_le (digitsVal_lt _ h2.2)
          (Nat.pow_le_pow_right (by norm_num) hlen)
      have hdn : digitsVal (signSplit b).2 < 1000000000 := by
        norm_num at hd
        exact hd
      have hnn : (0 : Int) ≤ (digitsVal (signSplit b).2 : Int) := Int.ofNat_nonneg _
      have hub : (digitsVal (signSplit b).2 : Int) < 2 ^ 63 := by
        calc (digitsVal (signSplit b).2 : Int) < 1000000000 := by exact_mod_cast hdn
          _ < 2 ^ 63 := by norm_num
      have hlb : -(2 : Int) ^ 63 ≤ (digitsVal (signSplit b).2 : Int) :=
        le_trans (by norm_num) hnn
      cases hs : (signSplit b).1
      · simp only [hs, Bool.false_eq_true, if_false]
        rw [if_pos ⟨hlb, hub⟩]
      · simp only [hs, if_true]
        have h1n : -(2 : Int) ^ 63 ≤ -(digitsVal (signSplit b).2 : Int) :=
          neg_le_neg hub.le
        have h2n : -(digitsVal (signSplit b).2 : Int) < 2 ^ 63 :=
          lt_of_le_of_lt (neg_nonpos.mpr hnn) (by norm_num)
        rw [if_pos ⟨h1n, h2n⟩]

/-- Claim C4: once one entry-point call of a decoder has returned an
error, every subsequent call to either entry point (`Decode` or
`DecodeMultiBulk`, in any order) returns no value and the
`failed-decoder` error, whatever input bytes remain. -/
theorem decoder_failure_is_sticky (d : Decoder) (c : DecCall) (e : DErr)
    (cs : List DecCall) (h : (d.step c).1.2 = some e) :
    Decoder.trace (d.step c).2 cs =
      List.replicate cs.length ((none, some DErr.failedDecoder)) := by
  obtain ⟨e₁, h₁⟩ := step_err_of_out_err d c e h
  exact trace_of_failed cs _ e₁ h₁

/-- Witness for C4: a decoder over the empty input fails its first
`Decode` call with a read error, after which a `Decode` and a
`DecodeMultiBulk` call both report `failed-decoder`. -/
theorem decoder_failure_is_sticky_witness :
    Decoder.trace ((Decoder.step { input := [], err := none } DecCall.single).2)
        [DecCall.single, DecCall.multi] =
      List.replicate 2 ((none, some DErr.failedDecoder)) :=
  decoder_failure_is_sticky { input := [], err := none } DecCall.single DErr.ioErr
    [DecCall.single, DecCall.multi] rfl

lemma readFull_exact (n : Nat) (b tail : List Nat) (h : b.length = n) :
    readFull n (b ++ tail) = .ok (b, tail) := by
  unfold readFull
  rw [if_pos (by simp [List.length_append, h])]
  subst h
  rw [List.take_left, List.drop_left]

/-- Claim C5: a bulk string whose declared length is exactly 512 MiB
(536870912) with its payload present decodes successfully; a declared
length strictly above 512 MiB fails with `bad-bulk-len-too-long`; a
declared length below -1 fails with `bad-bulk-len`. -/
theorem decodeBulkBytes_limits :
    (∀ (s payload rest : List Nat),
        decodeInt s = .ok (536870912, payload ++ 13 :: 10 :: rest) →
        payload.length = 536870912 →
        decodeBulkBytes s = .ok (some payload, rest))
    ∧ (∀ (s s₁ : List Nat) (n : Int), decodeInt s = .ok (n, s₁) →
        (MaxBulkBytesLen : Int) < n →
        decodeBulkBytes s = .error .badBulkBytesLenTooLong)
    ∧ (∀ (s s₁ : List Nat) (n : Int), decodeInt s = .ok (n, s₁) → n < -1 →
        decodeBulkBytes s = .error .badBulkBytesLen) := by
  refine ⟨?_, ?_, ?_⟩
  · intro s payload rest h hlen
    simp only [decodeBulkBytes, h]
    rw [if_neg (by norm_num), if_neg (by norm_num [MaxBulkBytesLen]),
      if_neg (by norm_num)]
    have hassoc : payload ++ 13 :: 10 :: rest = (payload ++ [13, 10]) ++ rest := by
      simp
    rw [hassoc, show ((536870912 : Int).toNat + 2) = 536870914 from rfl,
      readFull_exact 536870914 (payload ++ [13, 10]) rest
        (by simp [List.length_append, hlen])]
    have hle : payload.length ≤ 536870912 := by omega
    have hget1 : (payload ++ [13, 10])[(536870912 : Nat)]?.getD 0 = 13 := by
      rw [List.getElem?_append_right hle]
      simp [hlen]
    have hget2 : (payload ++ [13, 10])[(536870913 : Nat)]?.getD 0 = 10 := by
      rw [List.getElem?_append_right (by omega : payload.length ≤ 536870913)]
      simp [hlen]
    have htake : List.take 536870912 (payload ++ [13, 10]) = payload := by
      rw [← hlen, List.take_left]
    simp [hget1, hget2, htake]
  · intro s s₁ n h hmax
    have hmax' : (1024 * 1024 * 512 : Int) < n := by
      norm_num [MaxBulkBytesLen] at hmax
      exact hmax
    simp only [decodeBulkBytes, h]
    rw [if_neg (by omega), if_pos (by norm_num [MaxBulkBytesLen]; omega)]
  · intro s s₁ n h hneg
    simp only [decodeBulkBytes, h]
    rw [if_pos hneg]

lemma bulkInput_decodeInt :
    decodeInt bulkInput536 = .ok (536870912, bulkPayload ++ 13 :: 10 :: []) := rfl

lemma bulkPayload_length : bulkPayload.length = 536870912 := by
  unfold bulkPayload
  exact List.length_replicate 536870912 97

/-- Witness for C5: the concrete 512 MiB frame `bulkInput536` decodes to
`bulkPayload`; declared length 536870913 is rejected as too long;
declared length -2 is rejected as a bad bulk length. -/
theorem decodeBulkBytes_limits_witness :
    decodeBulkBytes bulkInput536 = .ok (some bulkPayload, [])
    ∧ decodeBulkBytes [53, 51, 54, 56, 55, 48, 57, 49, 51, 13, 10] =
      .error .badBulkBytesLenTooLong
    ∧ decodeBulkBytes [45, 50, 13, 10] = .error .badBulkBytesLen :=
  ⟨decodeBulkBytes_limits.1 bulkInput536 bulkPayload [] bulkInput_decodeInt
      bulkPayload_length,
   decodeBulkBytes_limits.2.1 _ [] 536870913 rfl (by norm_num [MaxBulkBytesLen]),
   decodeBulkBytes_limits.2.2 _ [] (-2) rfl (by norm_num)⟩

/-- Counterexample to claim C6 as stated: the multi-bulk entry point does
not decode an array header of length -1 ("*-1\r\n") to a null value; it
fails with the bad-array-len error. -/
theorem nullArray_multiBulk_counterexample :
    DecodeMultiBulkFromBytes [42, 45, 49, 13, 10] = (none, some DErr.badArrayLen) := rfl

/-- Claim C6 as amended: in the single-frame entry point an array header
declaring length -1 and a bulk-string header declaring length -1 each
decode to the null value rather than an error, and a -1 bulk header also
decodes to the null value as an element inside the multi-bulk entry
point; but a top-level array header of -1 in the multi-bulk entry point
is rejected with bad-array-len. -/
theorem nullValue_decoding :
    DecodeFromBytes [42, 45, 49, 13, 10] = (some (Resp.mk TypeArray none none), none)
    ∧ DecodeFromBytes [36, 45, 49, 13, 10] =
        (some (Resp.mk TypeBulkBytes none none), none)
    ∧ DecodeMultiBulkFromBytes [42, 49, 13, 10, 36, 45, 49, 13, 10] =
        (some [Resp.mk TypeBulkBytes none none], none)
    ∧ DecodeMultiBulkFromBytes [42, 45, 49, 13, 10] = (none, some DErr.badArrayLen) :=
  ⟨rfl, rfl, rfl, rfl⟩

/-- Claim C7: through the multi-bulk entry point's inline fallback, the
bytes "PING\r\n" decode to the one-element array of the bulk string
"PING"; the bare line "\r\n" decodes to the empty (nil) result with no
error; and the all-spaces line "   \r\n" fails with the bad-multi-bulk
length error. -/
theorem inline_multibulk_scenarios :
    DecodeMultiBulkFromBytes [80, 73, 78, 71, 13, 10] =
      (some [NewBulkBytes [80, 73, 78, 71]], none)
    ∧ DecodeMultiBulkFromBytes [13, 10] = (none, none)
    ∧ DecodeMultiBulkFromBytes [32, 32, 32, 13, 10] =
        (none, some DErr.badMultiBulkLen) :=
  ⟨rfl, rfl, rfl⟩

/-! ## Claim theorems: the router -/

/-- Claim C3: `FillSlot` fails with `closed-router` exactly when the
router is closed; otherwise with `invalid-slot-id` exactly when the
descriptor's slot id lies outside `[0, MaxSlotNum)`; otherwise with
`invalid-method` exactly when the forwarding-kind tag is neither sync nor
semi-async; it succeeds in every remaining case, and every failure
leaves the router (all slots included) unchanged. -/
theorem FillSlot_errors (s : Router) (m : ModelsSlot) :
    ((Router.FillSlot s m).2 = some .closedRouter ↔ s.closed = true)
    ∧ (s.closed = false →
        ((Router.FillSlot s m).2 = some .invalidSlotId ↔
          (m.id < 0 ∨ (MaxSlotNum : Int) ≤ m.id)))
    ∧ (s.closed = false → ¬(m.id < 0 ∨ (MaxSlotNum : Int) ≤ m.id) →
        ((Router.FillSlot s m).2 = some .invalidMethod ↔
          (m.forwardMethod ≠ modelsForwardSync ∧
            m.forwardMethod ≠ modelsForwardSemiAsync)))
    ∧ ((Router.FillSlot s m).2 = none ↔
        (s.closed = false ∧ ¬(m.id < 0 ∨ (MaxSlotNum : Int) ≤ m.id)
          ∧ (m.forwardMethod = modelsForwardSync ∨
              m.forwardMethod = modelsForwardSemiAsync)))
    ∧ ((Router.FillSlot s m).2 ≠ none → (Router.FillSlot s m).1 = s) := by
  unfold Router.FillSlot
  rcases hc : s.closed
  · split_ifs with h1 h2 h3 <;> simp_all
  · simp_all

/-- Witness for C3: on an open fresh router, a descriptor with a valid
slot id but forwarding tag 7 is rejected with `invalid-method` and the
router is untouched. -/
theorem FillSlot_errors_witness :
    (Router.FillSlot (NewRouter cfg₀) { descr₀ with forwardMethod := 7 }).2 =
      some .invalidMethod
    ∧ (Router.FillSlot (NewRouter cfg₀) { descr₀ with forwardMethod := 7 }).1 =
      NewRouter cfg₀ := by
  have h := FillSlot_errors (NewRouter cfg₀) { descr₀ with forwardMethod := 7 }
  have herr := (h.2.2.1 rfl (by decide)).mpr (by decide)
  exact ⟨herr, h.2.2.2.2 (by rw [herr]; exact fun hx => Option.noConfusion hx)⟩

/-! ## Helper lemmas: closed flag and slot frame conditions -/

lemma fillSlot_closed (s : Router) (m : ModelsSlot) (sw : Bool)
    (mth : Option ForwardKind) : (s.fillSlot m sw mth).closed = s.closed := rfl

lemma Close_closed (s : Router) : s.Close.closed = true := by
  unfold Router.Close
  split
  · assumption
  · have : ∀ (L : List Nat) (st : Router), st.closed = true →
        (L.foldl (fun st i => st.fillSlot (emptySlotDescr i) false none) st).closed =
          true := by
      intro L
      induction L with
      | nil => intro st h; exact h
      | cons j L ih => intro st h; exact ih _ (by rw [fillSlot_closed]; exact h)
    exact this _ _ rfl

lemma applyOp_closed (s : Router) (o : ROp) (h : s.closed = true) :
    (s.applyOp o).closed = true := by
  cases o with
  | start => simp [Router.applyOp, Router.Start, h]
  | close => simp [Router.applyOp, Router.Close, h]
  | keepAlive => exact h
  | fill m => simp [Router.applyOp, Router.FillSlot, h]
  | switch masters runId => simp [Router.applyOp, Router.SwitchMasters, h]

lemma applyOps_closed (ops : List ROp) :
    ∀ (s : Router), s.closed = true → (s.applyOps ops).closed = true := by
  induction ops with
  | nil => intro s h; exact h
  | cons o ops ih => intro s h; exact ih _ (applyOp_closed s o h)

/-- Claim C10: once `Close` has run, the closed flag stays set across
every later sequence of public operations, `isOnline` is false in every
such state, a later `Start` is an identity (it does not set the online
flag), and a second `Close` is an identity (it does not walk the slots
again). -/
theorem close_is_permanent (s : Router) (ops : List ROp) :
    (Router.applyOps s.Close ops).closed = true
    ∧ (Router.applyOps s.Close ops).isOnline = false
    ∧ s.Close.Start = s.Close
    ∧ s.Close.Close = s.Close := by
  have hc : (Router.applyOps s.Close ops).closed = true :=
    applyOps_closed ops _ (Close_closed s)
  have hstart : ∀ t : Router, t.closed = true → t.Start = t := by
    intro t h
    unfold Router.Start
    rw [if_pos h]
  have hclose : ∀ t : Router, t.closed = true → t.Close = t := by
    intro t h
    unfold Router.Close
    rw [if_pos h]
  exact ⟨hc, by simp [Router.isOnline, hc], hstart _ (Close_closed s),
    hclose _ (Close_closed s)⟩

lemma fillSlot_slots_ne (s : Router) (m : ModelsSlot) (sw : Bool)
    (mth : Option ForwardKind) (k : Fin MaxSlotNum) (hk : k ≠ slotIndex m.id) :
    (s.fillSlot m sw mth).slots k = s.slots k := by
  simp only [Router.fillSlot]
  exact Function.update_noteq hk _ _

lemma fillSlot_slot_id (s : Router) (m : ModelsSlot) (sw : Bool)
    (mth : Option ForwardKind) (k : Fin MaxSlotNum) :
    ((s.fillSlot m sw mth).slots k).id = (s.slots k).id := by
  by_cases hk : k = slotIndex m.id
  · subst hk
    simp only [Router.fillSlot, Function.update_same]
  · rw [fillSlot_slots_ne s m sw mth k hk]

/-! ## Helper lemmas: the master-switch path -/

lemma hasSameRunId_self (runId : String → String) (a : String) :
    hasSameRunId runId a a = true := by
  simp [hasSameRunId]

lemma hasSameRunId_known (runId : String → String) (a b : String)
    (h1 : runId a ≠ "") (h2 : runId a = runId b) :
    hasSameRunId runId a b = true := by
  unfold hasSameRunId
  split
  · exact decide_eq_true ⟨h1, h2⟩
  · rfl

lemma noSwitchCond_neg (masters : Int → String) (runId : String → String)
    (gid : Int) (addr : String) (h : noSwitchCond masters runId gid addr) :
    ¬(masters gid ≠ "" ∧ ¬hasSameRunId runId (masters gid) addr = true) := by
  rcases h with h | h | h
  · intro hcon
    exact hcon.1 h
  · intro hcon
    exact hcon.2 (h ▸ hasSameRunId_self runId addr)
  · intro hcon
    exact hcon.2 (hasSameRunId_known runId _ addr h.1 h.2)

lemma switchTarget_nochange (masters : Int → String) (runId : String → String)
    (m : ModelsSlot)
    (hb : noSwitchCond masters runId m.backendAddrGroupId m.backendAddr)
    (hm : noSwitchCond masters runId m.migrateFromGroupId m.migrateFrom) :
    switchTarget masters runId m = (m, false) := by
  simp only [switchTarget]
  rw [if_neg (noSwitchCond_neg masters runId _ _ hb)]
  rw [if_neg (noSwitchCond_neg masters runId _ _ hm)]

lemma trySwitchMaster_nochange (s : Router) (j : Nat) (masters : Int → String)
    (runId : String → String)
    (hb : noSwitchCond masters runId (s.slots (natIndex j)).backendId
      ((s.slots (natIndex j)).backendBc.getD ""))
    (hm : noSwitchCond masters runId (s.slots (natIndex j)).migrateId
      ((s.slots (natIndex j)).migrateBc.getD "")) :
    s.trySwitchMaster j masters runId = s := by
  simp only [Router.trySwitchMaster]
  rw [switchTarget_nochange masters runId _ hb hm]
  simp

lemma trySwitchMaster_frame (s : Router) (j : Nat) (masters : Int → String)
    (runId : String → String) (k : Fin MaxSlotNum)
    (hk : k ≠ slotIndex (Int.ofNat (s.slots (natIndex j)).id)) :
    (s.trySwitchMaster j masters runId).slots k = s.slots k := by
  simp only [Router.trySwitchMaster]
  split
  · next h =>
    have hid : (switchTarget masters runId ((s.slots (natIndex j)).snapshot)).1.id =
        Int.ofNat (s.slots (natIndex j)).id := by
      simp only [switchTarget]
      split <;> split <;> rfl
    rw [fillSlot_slots_ne]
    rw [hid]
    exact hk
  · rfl

lemma trySwitchMaster_slot_id (s : Router) (j : Nat) (masters : Int → String)
    (runId : String → String) (k : Fin MaxSlotNum) :
    ((s.trySwitchMaster j masters runId).slots k).id = (s.slots k).id := by
  simp only [Router.trySwitchMaster]
  split
  · exact fillSlot_slot_id s _ true none k
  · rfl

lemma slotIndex_of_consistent (s : Router) (j : Nat)
    (hids : slotIdsConsistent s) :
    slotIndex (Int.ofNat (s.slots (natIndex j)).id) = natIndex j := by
  rw [hids (natIndex j)]
  apply Fin.ext
  simp only [slotIndex, natIndex, Int.toNat_ofNat]
  exact Nat.mod_eq_of_lt (Nat.mod_lt _ (by decide))

lemma switch_fold_frame (masters : Int → String) (runId : String → String)
    (i : Fin MaxSlotNum) :
    ∀ (L : List Nat) (s : Router), slotIdsConsistent s →
      noSwitchCondBoth masters runId (s.slots i) →
      (L.foldl (fun st j => st.trySwitchMaster j masters runId) s).slots i =
        s.slots i := by
  intro L
  induction L with
  | nil => intro s _ _; rfl
  | cons j L ih =>
    intro s hids hP
    have hids' : slotIdsConsistent (s.trySwitchMaster j masters runId) := by
      intro k
      rw [trySwitchMaster_slot_id]
      exact hids k
    by_cases hj : natIndex j = i
    · have hstay : s.trySwitchMaster j masters runId = s := by
        apply trySwitchMaster_nochange
        · rw [hj]; exact hP.1
        · rw [hj]; exact hP.2
      simp only [List.foldl_cons, hstay]
      exact ih s hids hP
    · have hframe : (s.trySwitchMaster j masters runId).slots i = s.slots i := by
        apply trySwitchMaster_frame
        rw [slotIndex_of_consistent s j hids]
        exact fun he => hj he.symm
      simp only [List.foldl_cons]
      rw [ih _ hids' (by rw [hframe]; exact hP), hframe]

set_option maxRecDepth 10000 in
/-- Claim C1 as amended: during `SwitchMasters`, a slot whose
backend-group and migrate-from-group are each unmapped, mapped to the
address already held, or mapped to an address whose run-id is known and
equal to the held address's run-id, is left completely unchanged; a new
address with an unknown run-id, by contrast, does trigger a re-fill with
`switched = true` (see the counterexample). -/
theorem switchMasters_preserves_unswitchable (s : Router) (masters : Int → String)
    (runId : String → String) (i : Fin MaxSlotNum)
    (hids : slotIdsConsistent s) (hcl : s.closed = false)
    (hP : noSwitchCondBoth masters runId (s.slots i)) :
    ((s.SwitchMasters masters runId).1).slots i = s.slots i := by
  unfold Router.SwitchMasters
  rw [if_neg (by simp [hcl])]
  exact switch_fold_frame masters runId i (List.range MaxSlotNum) s hids hP

/-- Counterexample to claim C1 as stated: slot 0 of `r₁` holds backend
address "a" for group 1; the map sends group 1 to the different address
"b" whose run-id cannot be determined (the cache returns the empty
string), yet the slot is re-filled: its backend becomes "b" and its
switched flag flips from false to true. -/
theorem trySwitchMaster_unknownRunId_counterexample :
    ((r₁.trySwitchMaster 0 mastersToB runIdUnknown).slots (natIndex 0)).switched = true
    ∧ ((r₁.trySwitchMaster 0 mastersToB runIdUnknown).slots (natIndex 0)).backendBc =
        some "b"
    ∧ (r₁.slots (natIndex 0)).backendBc = some "a"
    ∧ (r₁.slots (natIndex 0)).switched = false
    ∧ (r₁.slots (natIndex 0)).backendId = 1
    ∧ mastersToB 1 = "b"
    ∧ runIdUnknown "b" = "" := by decide

/-- Witness for the amended C1: a `SwitchMasters` call whose map is
empty leaves slot 0 of a fresh router unchanged. -/
theorem switchMasters_preserves_unswitchable_witness :
    ((Router.SwitchMasters (NewRouter cfg₀) (fun _ => "") (fun _ => "")).1).slots
        (natIndex 0) =
      (NewRouter cfg₀).slots (natIndex 0) :=
  switchMasters_preserves_unswitchable (NewRouter cfg₀) (fun _ => "") (fun _ => "")
    (natIndex 0) (fun _ => rfl) rfl ⟨Or.inl rfl, Or.inl rfl⟩

/-- Claim C2 as amended: when the map gives a slot's backend group
exactly the address string the slot already holds (and does not move its
migrate-from group), `SwitchMasters` leaves the slot unchanged whatever
run-ids the info cache would report — the cache is never consulted for an
equal address pair, so a backend that restarted into a different run-id
behind the same address is not detected and `switched` keeps its value. -/
theorem switchMasters_sameAddr_noop (s : Router) (masters : Int → String)
    (runId : String → String) (i : Fin MaxSlotNum)
    (hids : slotIdsConsistent s) (hcl : s.closed = false)
    (hbEq : masters (s.slots i).backendId = (s.slots i).backendBc.getD "")
    (hmEq : masters (s.slots i).migrateId = "" ∨
      masters (s.slots i).migrateId = (s.slots i).migrateBc.getD "") :
    ((s.SwitchMasters masters runId).1).slots i = s.slots i
    ∧ (((s.SwitchMasters masters runId).1).slots i).switched =
        (s.slots i).switched := by
  have h := switchMasters_preserves_unswitchable s masters runId i hids hcl
    ⟨Or.inr (Or.inl hbEq), hmEq.elim Or.inl (fun he => Or.inr (Or.inl he))⟩
  exact ⟨h, by rw [h]⟩

/-- Counterexample to claim C2 as stated: slot 0 of `r₁` holds backend
address "a" for group 1 and the map sends group 1 to the same string
"a"; even with an info cache that reports a (fresh, hence different from
any previously held) run-id for every address, the slot is not
reconfigured and its switched flag stays false, where the claim demanded
a re-fill with switched = true. -/
theorem trySwitchMaster_sameAddr_counterexample :
    r₁.trySwitchMaster 0 mastersToA runIdFresh = r₁
    ∧ ((r₁.trySwitchMaster 0 mastersToA runIdFresh).slots (natIndex 0)).switched = false
    ∧ (r₁.slots (natIndex 0)).backendBc = some "a"
    ∧ (r₁.slots (natIndex 0)).backendId = 1
    ∧ mastersToA 1 = "a"
    ∧ runIdFresh "a" ≠ runIdFresh "b" :=
  ⟨rfl, by decide, by decide, by decide, rfl, by decide⟩

/-- Witness for the amended C2: `SwitchMasters` with the map sending
group 1 back to the held address "a" leaves slot 0 of `r₁` (its switched
flag included) unchanged. -/
theorem switchMasters_sameAddr_noop_witness :
    ((Router.SwitchMasters r₁ mastersToA runIdFresh).1).slots (natIndex 0) =
      r₁.slots (natIndex 0)
    ∧ (((Router.SwitchMasters r₁ mastersToA runIdFresh).1).slots (natIndex 0)).switched =
      (r₁.slots (natIndex 0)).switched :=
  switchMasters_sameAddr_noop r₁ mastersToA runIdFresh (natIndex 0)
    (fun k =>
      (fillSlot_slot_id (NewRouter cfg₀) descr₀ false (some ForwardKind.sync) k).trans rfl)
    rfl (by decide) (Or.inl (by decide))

/-- Claim C8: `dispatch` computes the slot id as the hash of the
request's hash key modulo `MaxSlotNum`, delegates the request to exactly
that slot's `forward` (the result is that slot's successor state and
outcome), and touches nothing else: every other slot, both pools and
both flags are unchanged. -/
theorem dispatch_selects_hashed_slot (hash : List Nat → Nat)
    (getHashKey : List (List Nat) → String → List Nat)
    (forward : Slot → Request → List Nat → Slot × Option RouterErr)
    (s : Router) (r : Request) :
    ((Router.dispatch hash getHashKey forward s r).1.slots
        ⟨hash (getHashKey r.multi r.opStr) % MaxSlotNum, Nat.mod_lt _ (by decide)⟩ =
      (forward
        (s.slots ⟨hash (getHashKey r.multi r.opStr) % MaxSlotNum,
          Nat.mod_lt _ (by decide)⟩) r (getHashKey r.multi r.opStr)).1)
    ∧ ((Router.dispatch hash getHashKey forward s r).2 =
      (forward
        (s.slots ⟨hash (getHashKey r.multi r.opStr) % MaxSlotNum,
          Nat.mod_lt _ (by decide)⟩) r (getHashKey r.multi r.opStr)).2)
    ∧ (∀ j : Fin MaxSlotNum,
        j ≠ ⟨hash (getHashKey r.multi r.opStr) % MaxSlotNum,
          Nat.mod_lt _ (by decide)⟩ →
        (Router.dispatch hash getHashKey forward s r).1.slots j = s.slots j)
    ∧ (Router.dispatch hash getHashKey forward s r).1.primaryPool = s.primaryPool
    ∧ (Router.dispatch hash getHashKey forward s r).1.replicaPool = s.replicaPool
    ∧ (Router.dispatch hash getHashKey forward s r).1.online = s.online
    ∧ (Router.dispatch hash getHashKey forward s r).1.closed = s.closed := by
  refine ⟨?_, rfl, ?_, rfl, rfl, rfl, rfl⟩
  · simp only [Router.dispatch, Function.update_same]
  · intro j hj
    simp only [Router.dispatch]
    exact Function.update_noteq hj _ _

/-- Witness for C8: with a hash constantly 5, dispatching a request on a
fresh router leaves slot 7 unchanged and reports the forward outcome. -/
theorem dispatch_selects_hashed_slot_witness :
    ((Router.dispatch (fun _ => 5) (fun _ _ => []) (fun sl _ _ => (sl, none))
        (NewRouter cfg₀) { multi := [], opStr := "GET" }).1.slots (natIndex 7) =
      (NewRouter cfg₀).slots (natIndex 7))
    ∧ ((Router.dispatch (fun _ => 5) (fun _ _ => []) (fun sl _ _ => (sl, none))
        (NewRouter cfg₀) { multi := [], opStr := "GET" }).2 = none) := by
  have h := dispatch_selects_hashed_slot (fun _ => 5) (fun _ _ => [])
    (fun sl _ _ => (sl, none)) (NewRouter cfg₀) { multi := [], opStr := "GET" }
  exact ⟨h.2.2.1 (natIndex 7) (by decide), h.2.1⟩

end Codis
